import Mathlib

/-!
Shallow embedding of the `rwlock` library (src/rwlock/rw_lock.h,
src/rwlock/shared_lock.h, src/rwlock/unique_lock.h).

The pthread read-write lock is modelled by an explicit `LockState`; each
pthread call becomes a pure function from the lock state and the calling
thread id to a status code (the C `int rc`) and the next lock state.  The
blocking calls return `Option`: `none` means the call blocks (it never
returns in a single-thread execution).  `cap` models the platform's
maximum concurrent-reader count (the `EAGAIN` condition of
`pthread_rwlock_rdlock`).

`SharedLock` and `UniqueLock` have the same private state
(`RWLock *lock_; bool owns_lock_;`), modelled once as `Guard`; a guard's
`lock_` field is `Option Nat`, the index of the referenced lock in a
`World` (list of lock states), `none` standing for a null pointer.
Member functions that can throw, dereference a null `lock_`, or block
return a `Res`: `thrown rc g w` records the errno and the machine state
at the throw, `fault` is the undefined behavior of dereferencing a null
`lock_`, `blocks` a call that never returns.
-/

def EPERM : Int := 1
def EAGAIN : Int := 11
def EBUSY : Int := 16
def EINVAL : Int := 22
def EDEADLK : Int := 35

/-- State of one `pthread_rwlock_t`: free, write-held by a thread, or
read-held by a list of threads (a thread may hold several read locks,
hence a list, not a set). -/
inductive LockState where
  | free
  | writeHeld (owner : Nat)
  | readHeld (readers : List Nat)
deriving DecidableEq

/-- Does thread `t` currently hold the lock (in either mode)? -/
def LockState.heldBy : LockState → Nat → Bool
  | .free, _ => false
  | .writeHeld o, t => o = t
  | .readHeld rs, t => rs.contains t

/-- `pthread_rwlock_trywrlock`: non-blocking exclusive acquire.  Returns
`0` on success, `EDEADLK` when the caller already write-holds the lock,
`EBUSY` when it is otherwise held. -/
def pthread_rwlock_trywrlock (s : LockState) (t : Nat) : Int × LockState :=
  match s with
  | .free => (0, .writeHeld t)
  | .writeHeld o => if o = t then (EDEADLK, .writeHeld o) else (EBUSY, .writeHeld o)
  | .readHeld rs => (EBUSY, .readHeld rs)

/-- `pthread_rwlock_wrlock`: blocking exclusive acquire.  `none` means the
call blocks (lock held by other threads); `EDEADLK` when the caller
already holds the lock in either mode. -/
def pthread_rwlock_wrlock (s : LockState) (t : Nat) : Option (Int × LockState) :=
  match s with
  | .free => some (0, .writeHeld t)
  | .writeHeld o => if o = t then some (EDEADLK, .writeHeld o) else none
  | .readHeld rs => if rs.contains t then some (EDEADLK, .readHeld rs) else none

/-- `pthread_rwlock_tryrdlock`: non-blocking shared acquire.  `EBUSY` when
a writer holds the lock, `EAGAIN` when the maximum number of read locks
(`cap`) has been reached, `EDEADLK` when the caller write-holds it. -/
def pthread_rwlock_tryrdlock (s : LockState) (t cap : Nat) : Int × LockState :=
  match s with
  | .free => (0, .readHeld [t])
  | .writeHeld o => if o = t then (EDEADLK, .writeHeld o) else (EBUSY, .writeHeld o)
  | .readHeld rs => if cap ≤ rs.length then (EAGAIN, .readHeld rs) else (0, .readHeld (t :: rs))

/-- `pthread_rwlock_rdlock`: blocking shared acquire. -/
def pthread_rwlock_rdlock (s : LockState) (t cap : Nat) : Option (Int × LockState) :=
  match s with
  | .free => some (0, .readHeld [t])
  | .writeHeld o => if o = t then some (EDEADLK, .writeHeld o) else none
  | .readHeld rs => if cap ≤ rs.length then some (EAGAIN, .readHeld rs) else some (0, .readHeld (t :: rs))

/-- `pthread_rwlock_unlock`: releases the caller's hold (one read hold, or
the write hold); `EPERM` when the caller does not hold the lock. -/
def pthread_rwlock_unlock (s : LockState) (t : Nat) : Int × LockState :=
  match s with
  | .free => (EPERM, .free)
  | .writeHeld o => if o = t then (0, .free) else (EPERM, .writeHeld o)
  | .readHeld rs =>
      if rs.contains t then
        (0, if rs.erase t = [] then .free else .readHeld (rs.erase t))
      else (EPERM, .readHeld rs)

namespace RWLock

/-- `RWLock::lock()`: `return pthread_rwlock_wrlock(&rwlock_);`. -/
def lock (s : LockState) (t : Nat) : Option (Int × LockState) :=
  pthread_rwlock_wrlock s t

/-- `RWLock::try_lock()`: `return pthread_rwlock_trywrlock(&rwlock_);`. -/
def try_lock (s : LockState) (t : Nat) : Int × LockState :=
  pthread_rwlock_trywrlock s t

/-- `RWLock::lock_shared()`: `return pthread_rwlock_rdlock(&rwlock_);`. -/
def lock_shared (s : LockState) (t cap : Nat) : Option (Int × LockState) :=
  pthread_rwlock_rdlock s t cap

/-- `RWLock::try_lock_shared()`: `return pthread_rwlock_tryrdlock(&rwlock_);`. -/
def try_lock_shared (s : LockState) (t cap : Nat) : Int × LockState :=
  pthread_rwlock_tryrdlock s t cap

/-- `RWLock::unlock()`: calls `pthread_rwlock_unlock`; `EPERM` is surfaced
as a `false` return, `EINVAL` throws `std::system_error` (modelled as
`Except.error`), anything else returns `true`. -/
def unlock (s : LockState) (t : Nat) : Except Int (Bool × LockState) :=
  let r := pthread_rwlock_unlock s t
  if r.1 = EPERM then .ok (false, r.2)
  else if r.1 = EINVAL then .error r.1
  else .ok (true, r.2)

end RWLock

/-- A world of lock objects: the lock state at each index (a guard's
`lock_` pointer is an index into the world). -/
abbrev World := List LockState

/-- Lock state at index `i` (out-of-range indices read as `free`; all
meaningful statements use in-range indices). -/
def World.getS (w : World) (i : Nat) : LockState := w.getD i .free

/-- Write back the state of lock `i`. -/
def World.setS (w : World) (i : Nat) (s : LockState) : World := w.set i s

/-- Common private state of `SharedLock` and `UniqueLock`:
`RWLock *lock_; bool owns_lock_;`.  `lock_ = none` models a null
pointer. -/
structure Guard where
  lock_ : Option Nat
  owns_lock_ : Bool
deriving DecidableEq

/-- Result of a guard member call: normal return, thrown
`std::system_error` (with errno and the guard/world state at the throw),
undefined behavior from dereferencing a null `lock_`, or a call that
blocks forever. -/
inductive Res (α : Type) where
  | ok : α → Res α
  | thrown : Int → Guard → World → Res α
  | fault : Res α
  | blocks : Res α
deriving DecidableEq

namespace SharedLock

/-- `SharedLock::lock()`: `rc = lock_->lock_shared()`; throws on
`EINVAL`/`EDEADLK`/`EAGAIN` after nulling `lock_`; otherwise sets
`owns_lock_ = true`. -/
def lock (g : Guard) (w : World) (t cap : Nat) : Res (Guard × World) :=
  match g.lock_ with
  | none => .fault
  | some i =>
    match pthread_rwlock_rdlock (w.getS i) t cap with
    | none => .blocks
    | some r =>
      if r.1 = EINVAL ∨ r.1 = EDEADLK ∨ r.1 = EAGAIN then
        .thrown r.1 { g with lock_ := none } w
      else
        .ok ({ g with owns_lock_ := true }, w.setS i r.2)

/-- `SharedLock::try_lock()`: note the source calls `lock_->try_lock()`
(the exclusive `pthread_rwlock_trywrlock`), not `try_lock_shared()`.
On `rc == 0` sets `owns_lock_ = true`; on `EINVAL` nulls `lock_` and
throws; otherwise returns `owns_lock_` unchanged. -/
def try_lock (g : Guard) (w : World) (t : Nat) : Res (Bool × Guard × World) :=
  match g.lock_ with
  | none => .fault
  | some i =>
    let r := pthread_rwlock_trywrlock (w.getS i) t
    if r.1 = 0 then .ok (true, { g with owns_lock_ := true }, w.setS i r.2)
    else if r.1 = EINVAL then .thrown r.1 { g with lock_ := none } w
    else .ok (g.owns_lock_, g, w.setS i r.2)

/-- Polling loop body of `SharedLock::try_lock_until`, with the remaining
number of iterations (`deadline - now`, one iteration per poll interval)
as fuel.  `env n` is the world observed by the attempt at tick `n`
(concurrent threads may change the lock between polls). -/
def try_lock_until_aux (env : Nat → World) (t : Nat) : Guard → Nat → Nat → Res (Bool × Guard)
  | g, _, 0 => .ok (false, g)
  | g, now, fuel + 1 =>
      match try_lock g (env now) t with
      | .ok (true, g2, _) => .ok (true, g2)
      | .ok (false, g2, _) => try_lock_until_aux env t g2 (now + 1) fuel
      | .thrown rc g2 w2 => .thrown rc g2 w2
      | .fault => .fault
      | .blocks => .blocks

/-- `SharedLock::try_lock_until(timeout_time)`: `while (Clock::now() <
timeout_time) { if (try_lock()) return true; sleep_for(0.01ms); }
return false;`.  Time is measured in poll intervals, so the loop runs
`deadline - now` iterations. -/
def try_lock_until (g : Guard) (env : Nat → World) (t now deadline : Nat) : Res (Bool × Guard) :=
  try_lock_until_aux env t g now (deadline - now)

/-- `SharedLock::try_lock_for(d)`: `return try_lock_until(now() + d);`. -/
def try_lock_for (g : Guard) (env : Nat → World) (t now dur : Nat) : Res (Bool × Guard) :=
  try_lock_until g env t now (now + dur)

/-- `SharedLock::unlock()`: `if (owns_lock_ && lock_->unlock())
owns_lock_ = false;`. -/
def unlock (g : Guard) (w : World) (t : Nat) : Res (Guard × World) :=
  if g.owns_lock_ then
    match g.lock_ with
    | none => .fault
    | some i =>
      match RWLock.unlock (w.getS i) t with
      | .ok r =>
          if r.1 then .ok ({ g with owns_lock_ := false }, w.setS i r.2)
          else .ok (g, w.setS i r.2)
      | .error rc => .thrown rc g w
  else .ok (g, w)

/-- `SharedLock::release()`: returns `lock_` and clears the guard to
`(nullptr, false)`; the lock itself is untouched (the function does not
take the world at all). -/
def release (g : Guard) : Option Nat × Guard :=
  (g.lock_, { lock_ := none, owns_lock_ := false })

/-- `SharedLock::rwlock()`. -/
def rwlock (g : Guard) : Option Nat := g.lock_

/-- `SharedLock::owns_lock()`. -/
def owns_lock (g : Guard) : Bool := g.owns_lock_

/-- `SharedLock::swap(other)`. -/
def swap (a b : Guard) : Guard × Guard := (b, a)

/-- `SharedLock::SharedLock(RWLock&, std::try_to_lock_t)`: calls
`try_lock_shared`; `rc == 0` owns, `EBUSY`/`EAGAIN` constructs
non-owning, anything else nulls `lock_` and throws. -/
def tryToLockCtor (i : Nat) (w : World) (t cap : Nat) : Res (Guard × World) :=
  let r := pthread_rwlock_tryrdlock (w.getS i) t cap
  if r.1 = 0 then .ok ({ lock_ := some i, owns_lock_ := true }, w.setS i r.2)
  else if r.1 = EBUSY ∨ r.1 = EAGAIN then .ok ({ lock_ := some i, owns_lock_ := false }, w)
  else .thrown r.1 { lock_ := none, owns_lock_ := false } w

/-- `SharedLock::SharedLock(RWLock&)`: stores the pointer, `owns = false`,
then calls `lock()`. -/
def ctor (i : Nat) (w : World) (t cap : Nat) : Res (Guard × World) :=
  lock { lock_ := some i, owns_lock_ := false } w t cap

/-- `SharedLock::SharedLock(SharedLock&&)`: destination takes the
`(lock_, owns_lock_)` pair, source is cleared.  Result is
`(destination, moved-from source)`. -/
def moveCtor (src : Guard) : Guard × Guard :=
  ({ lock_ := src.lock_, owns_lock_ := src.owns_lock_ },
   { lock_ := none, owns_lock_ := false })

/-- `SharedLock::operator=(SharedLock&&)` for `this != &other`: if the
destination owns a lock it calls `lock_->unlock()` first (result
ignored), then takes the source's pair and clears the source.  Result is
`(new destination, moved-from source, world)`. -/
def moveAssign (dst src : Guard) (w : World) (t : Nat) : Res (Guard × Guard × World) :=
  if dst.owns_lock_ then
    match dst.lock_ with
    | none => .fault
    | some i =>
      match RWLock.unlock (w.getS i) t with
      | .ok r =>
          .ok ({ lock_ := src.lock_, owns_lock_ := src.owns_lock_ },
               { lock_ := none, owns_lock_ := false }, w.setS i r.2)
      | .error rc => .thrown rc dst w
  else
    .ok ({ lock_ := src.lock_, owns_lock_ := src.owns_lock_ },
         { lock_ := none, owns_lock_ := false }, w)

/-- `SharedLock::~SharedLock()`: `if (owns_lock_) lock_->unlock();`
(return value ignored). -/
def destruct (g : Guard) (w : World) (t : Nat) : Res World :=
  if g.owns_lock_ then
    match g.lock_ with
    | none => .fault
    | some i =>
      match RWLock.unlock (w.getS i) t with
      | .ok r => .ok (w.setS i r.2)
      | .error rc => .thrown rc g w
  else .ok w

/-- Public member functions and constructors declared in
src/rwlock/shared_lock.h (copy and copy-assignment are deleted). -/
def publicMembers : List String :=
  ["SharedLock(RWLock&)", "lock()", "try_lock()", "try_lock_for(duration)",
   "try_lock_until(time_point)", "unlock()", "swap(SharedLock&)", "release()",
   "rwlock()", "owns_lock()", "~SharedLock()",
   "SharedLock(RWLock&, std::try_to_lock_t)", "SharedLock(SharedLock&&)",
   "operator=(SharedLock&&)"]

end SharedLock

namespace UniqueLock

/-- `UniqueLock::lock()`: `rc = lock_->lock()`; throws on
`EINVAL`/`EDEADLK` after nulling `lock_`; otherwise sets
`owns_lock_ = true`. -/
def lock (g : Guard) (w : World) (t : Nat) : Res (Guard × World) :=
  match g.lock_ with
  | none => .fault
  | some i =>
    match pthread_rwlock_wrlock (w.getS i) t with
    | none => .blocks
    | some r =>
      if r.1 = EINVAL ∨ r.1 = EDEADLK then
        .thrown r.1 { g with lock_ := none } w
      else
        .ok ({ g with owns_lock_ := true }, w.setS i r.2)

/-- `UniqueLock::try_lock()`: calls `lock_->try_lock()`
(`pthread_rwlock_trywrlock`); same structure as `SharedLock::try_lock`. -/
def try_lock (g : Guard) (w : World) (t : Nat) : Res (Bool × Guard × World) :=
  match g.lock_ with
  | none => .fault
  | some i =>
    let r := pthread_rwlock_trywrlock (w.getS i) t
    if r.1 = 0 then .ok (true, { g with owns_lock_ := true }, w.setS i r.2)
    else if r.1 = EINVAL then .thrown r.1 { g with lock_ := none } w
    else .ok (g.owns_lock_, g, w.setS i r.2)

/-- Polling loop body of `UniqueLock::try_lock_until` (same shape as the
shared one). -/
def try_lock_until_aux (env : Nat → World) (t : Nat) : Guard → Nat → Nat → Res (Bool × Guard)
  | g, _, 0 => .ok (false, g)
  | g, now, fuel + 1 =>
      match try_lock g (env now) t with
      | .ok (true, g2, _) => .ok (true, g2)
      | .ok (false, g2, _) => try_lock_until_aux env t g2 (now + 1) fuel
      | .thrown rc g2 w2 => .thrown rc g2 w2
      | .fault => .fault
      | .blocks => .blocks

/-- `UniqueLock::try_lock_until(timeout_time)`. -/
def try_lock_until (g : Guard) (env : Nat → World) (t now deadline : Nat) : Res (Bool × Guard) :=
  try_lock_until_aux env t g now (deadline - now)

/-- `UniqueLock::try_lock_for(d)`: `return try_lock_until(now() + d);`. -/
def try_lock_for (g : Guard) (env : Nat → World) (t now dur : Nat) : Res (Bool × Guard) :=
  try_lock_until g env t now (now + dur)

/-- `UniqueLock::unlock()`: `if (owns_lock_ && lock_->unlock())
owns_lock_ = false;`. -/
def unlock (g : Guard) (w : World) (t : Nat) : Res (Guard × World) :=
  if g.owns_lock_ then
    match g.lock_ with
    | none => .fault
    | some i =>
      match RWLock.unlock (w.getS i) t with
      | .ok r =>
          if r.1 then .ok ({ g with owns_lock_ := false }, w.setS i r.2)
          else .ok (g, w.setS i r.2)
      | .error rc => .thrown rc g w
  else .ok (g, w)

/-- `UniqueLock::release()`. -/
def release (g : Guard) : Option Nat × Guard :=
  (g.lock_, { lock_ := none, owns_lock_ := false })

/-- `UniqueLock::rwlock()`. -/
def rwlock (g : Guard) : Option Nat := g.lock_

/-- `UniqueLock::owns_lock()`. -/
def owns_lock (g : Guard) : Bool := g.owns_lock_

/-- `UniqueLock::swap(other)`. -/
def swap (a b : Guard) : Guard × Guard := (b, a)

/-- `UniqueLock::UniqueLock(RWLock&)`: stores the pointer, `owns = false`,
then calls `lock()`. -/
def ctor (i : Nat) (w : World) (t : Nat) : Res (Guard × World) :=
  lock { lock_ := some i, owns_lock_ := false } w t

/-- `UniqueLock::UniqueLock(UniqueLock&&)`. -/
def moveCtor (src : Guard) : Guard × Guard :=
  ({ lock_ := src.lock_, owns_lock_ := src.owns_lock_ },
   { lock_ := none, owns_lock_ := false })

/-- `UniqueLock::operator=(UniqueLock&&)` for `this != &other`. -/
def moveAssign (dst src : Guard) (w : World) (t : Nat) : Res (Guard × Guard × World) :=
  if dst.owns_lock_ then
    match dst.lock_ with
    | none => .fault
    | some i =>
      match RWLock.unlock (w.getS i) t with
      | .ok r =>
          .ok ({ lock_ := src.lock_, owns_lock_ := src.owns_lock_ },
               { lock_ := none, owns_lock_ := false }, w.setS i r.2)
      | .error rc => .thrown rc dst w
  else
    .ok ({ lock_ := src.lock_, owns_lock_ := src.owns_lock_ },
         { lock_ := none, owns_lock_ := false }, w)

/-- `UniqueLock::~UniqueLock()`: `if (owns_lock_) lock_->unlock();`. -/
def destruct (g : Guard) (w : World) (t : Nat) : Res World :=
  if g.owns_lock_ then
    match g.lock_ with
    | none => .fault
    | some i =>
      match RWLock.unlock (w.getS i) t with
      | .ok r => .ok (w.setS i r.2)
      | .error rc => .thrown rc g w
  else .ok w

/-- Public member functions and constructors declared in
src/rwlock/unique_lock.h (copy and copy-assignment are deleted; note
there is no try-to-lock constructor). -/
def publicMembers : List String :=
  ["UniqueLock(RWLock&)", "lock()", "try_lock()", "try_lock_for(duration)",
   "try_lock_until(time_point)", "unlock()", "swap(UniqueLock&)", "release()",
   "rwlock()", "owns_lock()", "~UniqueLock()", "UniqueLock(UniqueLock&&)",
   "operator=(UniqueLock&&)"]

end UniqueLock

/-! ## Helper lemmas -/

/-- Writing back the state a lock already has leaves the world unchanged. -/
theorem World.setS_getS : ∀ (w : World) (i : Nat), w.setS i (w.getS i) = w
  | [], _ => rfl
  | _ :: _, 0 => rfl
  | a :: l, i + 1 => by
      show a :: World.setS l i (World.getS l i) = a :: l
      rw [World.setS_getS l i]

/-- `pthread_rwlock_unlock` succeeds exactly when the caller holds the
lock; otherwise it reports `EPERM` and leaves the state unchanged. -/
theorem pthread_unlock_spec (s : LockState) (t : Nat) :
    (s.heldBy t = true ∧ (pthread_rwlock_unlock s t).1 = 0) ∨
    (s.heldBy t = false ∧ pthread_rwlock_unlock s t = (EPERM, s)) := by
  cases s with
  | free => right; simp [LockState.heldBy, pthread_rwlock_unlock]
  | writeHeld o =>
      by_cases h : o = t
      · left; simp [LockState.heldBy, pthread_rwlock_unlock, h]
      · right; simp [LockState.heldBy, pthread_rwlock_unlock, h]
  | readHeld rs =>
      by_cases h : t ∈ rs
      · left; simp [LockState.heldBy, pthread_rwlock_unlock, h]
      · right; simp [LockState.heldBy, pthread_rwlock_unlock, h]

/-- `RWLock::unlock` never throws in the model: it returns `true` with
the released state when the caller holds the lock and `false` with the
state unchanged otherwise. -/
theorem RWLock.unlock_spec (s : LockState) (t : Nat) :
    (s.heldBy t = true ∧
      RWLock.unlock s t = .ok (true, (pthread_rwlock_unlock s t).2)) ∨
    (s.heldBy t = false ∧ RWLock.unlock s t = .ok (false, s)) := by
  rcases pthread_unlock_spec s t with ⟨h1, h2⟩ | ⟨h1, h2⟩
  · left
    refine ⟨h1, ?_⟩
    simp [RWLock.unlock, h2, EPERM, EINVAL]
  · right
    refine ⟨h1, ?_⟩
    simp [RWLock.unlock, h2, EPERM, EINVAL]

/-- `pthread_rwlock_trywrlock` either succeeds or fails with
`EBUSY`/`EDEADLK`, leaving the state unchanged on failure. -/
theorem trywr_cases (s : LockState) (t : Nat) :
    (pthread_rwlock_trywrlock s t).1 = 0 ∨
    pthread_rwlock_trywrlock s t = (EBUSY, s) ∨
    pthread_rwlock_trywrlock s t = (EDEADLK, s) := by
  cases s with
  | free => left; rfl
  | writeHeld o =>
      by_cases h : o = t
      · right; right; simp [pthread_rwlock_trywrlock, h]
      · right; left; simp [pthread_rwlock_trywrlock, h]
  | readHeld rs => right; left; rfl

/-- A failed `SharedLock::try_lock` leaves the guard and the world
unchanged and returns the current `owns_lock_` flag. -/
theorem SharedLock.try_lock_fail (g : Guard) (w : World) (t i : Nat)
    (hg : g.lock_ = some i)
    (h : (pthread_rwlock_trywrlock (w.getS i) t).1 ≠ 0) :
    SharedLock.try_lock g w t = .ok (g.owns_lock_, g, w) := by
  rcases trywr_cases (w.getS i) t with h0 | h1 | h1
  · exact absurd h0 h
  · simp [SharedLock.try_lock, hg, h1, EBUSY, EINVAL, World.setS_getS]
  · simp [SharedLock.try_lock, hg, h1, EDEADLK, EINVAL, World.setS_getS]

/-- A successful `SharedLock::try_lock` sets `owns_lock_` and writes back
the acquired state. -/
theorem SharedLock.try_lock_succ (g : Guard) (w : World) (t i : Nat)
    (hg : g.lock_ = some i)
    (h : (pthread_rwlock_trywrlock (w.getS i) t).1 = 0) :
    SharedLock.try_lock g w t =
      .ok (true, { g with owns_lock_ := true },
           w.setS i (pthread_rwlock_trywrlock (w.getS i) t).2) := by
  simp [SharedLock.try_lock, hg, h]

/-- `UniqueLock::try_lock` and `SharedLock::try_lock` are the same
function: both call `RWLock::try_lock` (`pthread_rwlock_trywrlock`). -/
theorem UniqueLock.try_lock_eq_shared : UniqueLock.try_lock = SharedLock.try_lock := by
  funext g w t
  rfl

/-- If every poll in the window fails, the polling loop returns `false`
with the guard unchanged. -/
theorem SharedLock.aux_timeout (env : Nat → World) (t i : Nat) :
    ∀ (fuel now : Nat),
      (∀ k, k < fuel → (pthread_rwlock_trywrlock ((env (now + k)).getS i) t).1 ≠ 0) →
      SharedLock.try_lock_until_aux env t ⟨some i, false⟩ now fuel =
        .ok (false, ⟨some i, false⟩)
  | 0, _, _ => rfl
  | fuel + 1, now, h => by
      have h0 := h 0 (Nat.succ_pos _)
      rw [Nat.add_zero] at h0
      have hfail := SharedLock.try_lock_fail ⟨some i, false⟩ (env now) t i rfl h0
      unfold SharedLock.try_lock_until_aux
      rw [hfail]
      exact SharedLock.aux_timeout env t i fuel (now + 1) (fun k hk => by
        have hx := h (k + 1) (Nat.succ_lt_succ hk)
        rw [show now + 1 + k = now + (k + 1) by omega]
        exact hx)

/-- If the first successful poll happens at offset `k` inside the window,
the polling loop returns `true` with an owning guard. -/
theorem SharedLock.aux_first_succ (env : Nat → World) (t i : Nat) :
    ∀ (fuel k now : Nat), k < fuel →
      (pthread_rwlock_trywrlock ((env (now + k)).getS i) t).1 = 0 →
      (∀ m, m < k → (pthread_rwlock_trywrlock ((env (now + m)).getS i) t).1 ≠ 0) →
      SharedLock.try_lock_until_aux env t ⟨some i, false⟩ now fuel =
        .ok (true, ⟨some i, true⟩)
  | 0, k, _, hk, _, _ => absurd hk (Nat.not_lt_zero k)
  | fuel + 1, 0, now, _, hsucc, _ => by
      rw [Nat.add_zero] at hsucc
      have h := SharedLock.try_lock_succ ⟨some i, false⟩ (env now) t i rfl hsucc
      unfold SharedLock.try_lock_until_aux
      rw [h]
  | fuel + 1, k + 1, now, hk, hsucc, hpre => by
      have h0 := hpre 0 (Nat.succ_pos _)
      rw [Nat.add_zero] at h0
      have hfail := SharedLock.try_lock_fail ⟨some i, false⟩ (env now) t i rfl h0
      unfold SharedLock.try_lock_until_aux
      rw [hfail]
      exact SharedLock.aux_first_succ env t i fuel k (now + 1)
        (Nat.lt_of_succ_lt_succ hk)
        (by rw [show now + 1 + k = now + (k + 1) by omega]; exact hsucc)
        (fun m hm => by
          have hx := hpre (m + 1) (Nat.succ_lt_succ hm)
          rw [show now + 1 + m = now + (m + 1) by omega]
          exact hx)

/-- The two polling loops are the same function (both poll
`RWLock::try_lock`). -/
theorem UniqueLock.aux_eq_shared :
    UniqueLock.try_lock_until_aux = SharedLock.try_lock_until_aux := by
  funext env t g now fuel
  induction fuel generalizing g now with
  | zero => rfl
  | succ n ih =>
      unfold UniqueLock.try_lock_until_aux SharedLock.try_lock_until_aux
      rw [UniqueLock.try_lock_eq_shared]
      cases h : SharedLock.try_lock g (env now) t with
      | ok r =>
          obtain ⟨b, g2, w2⟩ := r
          cases b
          · simpa using ih g2 (now + 1)
          · rfl
      | thrown rc g2 w2 => rfl
      | fault => rfl
      | blocks => rfl

/-- A zero return from `pthread_rwlock_trywrlock` happens only on a free
lock, and then the lock becomes write-held by the caller. -/
theorem trywr_zero (s : LockState) (t : Nat)
    (h : (pthread_rwlock_trywrlock s t).1 = 0) :
    s = .free ∧ pthread_rwlock_trywrlock s t = (0, .writeHeld t) := by
  cases s with
  | free => exact ⟨rfl, rfl⟩
  | writeHeld o =>
      by_cases ho : o = t <;>
        simp [pthread_rwlock_trywrlock, ho, EDEADLK, EBUSY] at h
  | readHeld rs => simp [pthread_rwlock_trywrlock, EBUSY] at h

/-! ## Claims -/

/-- Claim C1 (evaluation of the code at the failing input): the claim says
`SharedLock::lock()` and `SharedLock::try_lock()` both perform a
shared-mode (read) acquisition.  The code of `try_lock()` instead calls
`RWLock::try_lock()` (`pthread_rwlock_trywrlock`): on a lock read-held by
thread 0, thread 1's `SharedLock::try_lock()` returns `false`, although
the shared try-acquire (`pthread_rwlock_tryrdlock`) succeeds on that
state; and on a free lock `SharedLock::try_lock()` acquires the WRITE
mode.  Its blocking `lock()` does acquire the read mode as claimed. -/
theorem C1_sharedLock_try_lock_acquires_exclusive :
    SharedLock.try_lock ⟨some 0, false⟩ [LockState.readHeld [0]] 1 =
      .ok (false, ⟨some 0, false⟩, [LockState.readHeld [0]]) ∧
    pthread_rwlock_tryrdlock (LockState.readHeld [0]) 1 8 =
      (0, LockState.readHeld [1, 0]) ∧
    SharedLock.try_lock ⟨some 0, false⟩ [LockState.free] 1 =
      .ok (true, ⟨some 0, true⟩, [LockState.writeHeld 1]) ∧
    SharedLock.lock ⟨some 0, false⟩ [LockState.free] 1 8 =
      .ok (⟨some 0, true⟩, [LockState.readHeld [1]]) := by
  refine ⟨?_, ?_, ?_, ?_⟩ <;> rfl

/-- Claim C2 (counterexample): the claim says `UniqueLock` offers the
identical set of operations as `SharedLock`, including the try-acquire
construction.  `SharedLock` declares a `try_to_lock_t` constructor;
`UniqueLock` declares no corresponding constructor. -/
theorem C2_uniqueLock_missing_try_acquire_ctor :
    "SharedLock(RWLock&, std::try_to_lock_t)" ∈ SharedLock.publicMembers ∧
    "UniqueLock(RWLock&, std::try_to_lock_t)" ∉ UniqueLock.publicMembers := by
  decide

/-- Claim C2 (amended): `UniqueLock` offers the operations of `SharedLock`
except the try-acquire constructor (see the counterexample): unlock,
release, swap, move construction/assignment, destruction and the timed
polling loops are the very same functions, `try_lock` is the same
function (both call `RWLock::try_lock`), and the blocking `lock()`
substitutes the exclusive acquire: whenever it returns normally the lock
was free and is now write-held by the caller, and a `try_lock` that
returns `true` on a previously non-owning guard likewise leaves the lock
write-held by the caller. -/
theorem C2_uniqueLock_mirrors_sharedLock_with_exclusive_acquire :
    UniqueLock.unlock = SharedLock.unlock ∧
    UniqueLock.release = SharedLock.release ∧
    UniqueLock.swap = SharedLock.swap ∧
    UniqueLock.moveCtor = SharedLock.moveCtor ∧
    UniqueLock.moveAssign = SharedLock.moveAssign ∧
    UniqueLock.destruct = SharedLock.destruct ∧
    UniqueLock.try_lock = SharedLock.try_lock ∧
    UniqueLock.try_lock_until = SharedLock.try_lock_until ∧
    UniqueLock.try_lock_for = SharedLock.try_lock_for ∧
    (∀ (g g2 : Guard) (w w2 : World) (t i : Nat), g.lock_ = some i →
       UniqueLock.lock g w t = .ok (g2, w2) →
       w.getS i = .free ∧ g2 = ⟨some i, true⟩ ∧ w2 = w.setS i (.writeHeld t)) ∧
    (∀ (g g2 : Guard) (w w2 : World) (t i : Nat), g.lock_ = some i →
       g.owns_lock_ = false → UniqueLock.try_lock g w t = .ok (true, g2, w2) →
       w.getS i = .free ∧ g2 = ⟨some i, true⟩ ∧ w2 = w.setS i (.writeHeld t)) := by
  refine ⟨rfl, rfl, rfl, rfl, rfl, rfl, UniqueLock.try_lock_eq_shared, ?_, ?_, ?_, ?_⟩
  · funext g env t now dl
    show UniqueLock.try_lock_until_aux env t g now (dl - now) =
      SharedLock.try_lock_until_aux env t g now (dl - now)
    rw [UniqueLock.aux_eq_shared]
  · funext g env t now d
    show UniqueLock.try_lock_until_aux env t g now (now + d - now) =
      SharedLock.try_lock_until_aux env t g now (now + d - now)
    rw [UniqueLock.aux_eq_shared]
  · intro g g2 w w2 t i hg h
    obtain ⟨gl, go⟩ := g
    simp only at hg
    subst hg
    cases hs : w.getS i with
    | free =>
        simp [UniqueLock.lock, hs, pthread_rwlock_wrlock, EINVAL, EDEADLK] at h
        exact ⟨rfl, h.1.symm, h.2.symm⟩
    | writeHeld o =>
        by_cases ho : o = t <;>
          simp [UniqueLock.lock, hs, pthread_rwlock_wrlock, ho, EINVAL, EDEADLK] at h
    | readHeld rs =>
        by_cases ht : t ∈ rs <;>
          simp [UniqueLock.lock, hs, pthread_rwlock_wrlock, ht, EINVAL, EDEADLK] at h
  · intro g g2 w w2 t i hg hb h
    rw [UniqueLock.try_lock_eq_shared] at h
    rcases trywr_cases (w.getS i) t with h0 | h1 | h1
    · obtain ⟨hs, heq⟩ := trywr_zero (w.getS i) t h0
      rw [SharedLock.try_lock_succ g w t i hg h0] at h
      obtain ⟨gl, go⟩ := g
      simp only at hg hb
      subst hg
      subst hb
      simp only [Res.ok.injEq, Prod.mk.injEq, true_and] at h
      refine ⟨hs, h.1.symm, ?_⟩
      rw [← h.2, heq]
    · rw [SharedLock.try_lock_fail g w t i hg (by rw [h1]; simp [EBUSY])] at h
      rw [hb] at h
      simp at h
    · rw [SharedLock.try_lock_fail g w t i hg (by rw [h1]; simp [EDEADLK])] at h
      rw [hb] at h
      simp at h

/-- Claim C2 witness: the amended theorem applied to a free lock and the
guard produced by `UniqueLock`'s blocking constructor path. -/
theorem C2_exclusive_acquire_witness :
    World.getS [LockState.free] 0 = LockState.free ∧
    (⟨some 0, true⟩ : Guard) = ⟨some 0, true⟩ ∧
    [LockState.writeHeld 0] = World.setS [LockState.free] 0 (.writeHeld 0) :=
  C2_uniqueLock_mirrors_sharedLock_with_exclusive_acquire.2.2.2.2.2.2.2.2.2.1
    ⟨some 0, false⟩ ⟨some 0, true⟩ [LockState.free] [LockState.writeHeld 0] 0 0 rfl rfl

/-- Claim C4: `release()` returns the associated lock reference and clears
the guard to the empty state; the underlying lock is untouched (`release`
does not act on the world at all), so a subsequent manual `RWLock::unlock`
by the caller on the still-held lock succeeds. -/
theorem C4_release_hands_off_without_unlock :
    (∀ g : Guard, SharedLock.release g = (g.lock_, ⟨none, false⟩)) ∧
    (∀ g : Guard, UniqueLock.release g = (g.lock_, ⟨none, false⟩)) ∧
    (∀ (g : Guard) (w : World) (t i : Nat), g.lock_ = some i →
       (w.getS i).heldBy t = true →
       (SharedLock.release g).1 = some i ∧
       (SharedLock.release g).2 = ⟨none, false⟩ ∧
       RWLock.unlock (w.getS i) t =
         .ok (true, (pthread_rwlock_unlock (w.getS i) t).2)) ∧
    (∀ (g : Guard) (w : World) (t i : Nat), g.lock_ = some i →
       (w.getS i).heldBy t = true →
       (UniqueLock.release g).1 = some i ∧
       (UniqueLock.release g).2 = ⟨none, false⟩ ∧
       RWLock.unlock (w.getS i) t =
         .ok (true, (pthread_rwlock_unlock (w.getS i) t).2)) := by
  have key : ∀ (w : World) (t i : Nat), (w.getS i).heldBy t = true →
      RWLock.unlock (w.getS i) t =
        .ok (true, (pthread_rwlock_unlock (w.getS i) t).2) := by
    intro w t i hh
    rcases RWLock.unlock_spec (w.getS i) t with ⟨_, h2⟩ | ⟨hf, _⟩
    · exact h2
    · rw [hh] at hf
      simp at hf
  refine ⟨fun g => rfl, fun g => rfl, ?_, ?_⟩ <;>
    · intro g w t i hg hh
      exact ⟨by simp [SharedLock.release, UniqueLock.release, hg],
             rfl, key w t i hh⟩

/-- Claim C4 witness: a guard owning lock 0 (read-held by thread 0)
releases; the returned reference still points at a held lock that the
caller can unlock. -/
theorem C4_release_witness :
    (SharedLock.release ⟨some 0, true⟩).1 = some 0 ∧
    (SharedLock.release ⟨some 0, true⟩).2 = ⟨none, false⟩ ∧
    RWLock.unlock (World.getS [LockState.readHeld [0]] 0) 0 =
      .ok (true, (pthread_rwlock_unlock (World.getS [LockState.readHeld [0]] 0) 0).2) :=
  C4_release_hands_off_without_unlock.2.2.1 ⟨some 0, true⟩
    [LockState.readHeld [0]] 0 0 rfl (by decide)

/-- Claim C6: `SharedLock`'s try-acquire constructor yields a guard that
is associated but non-owning, with no error, when the lock is write-held
by another thread (`EBUSY`) or the reader cap is reached (`EAGAIN`); it
owns the lock on success; any other failure (here `EDEADLK`, the caller
already write-holds the lock) throws after clearing the lock reference. -/
theorem C6_try_ctor_contention_is_nonowning :
    (∀ (w : World) (i t cap u : Nat), w.getS i = .writeHeld u → u ≠ t →
       SharedLock.tryToLockCtor i w t cap = .ok (⟨some i, false⟩, w)) ∧
    (∀ (w : World) (i t cap : Nat) (rs : List Nat), w.getS i = .readHeld rs →
       cap ≤ rs.length →
       SharedLock.tryToLockCtor i w t cap = .ok (⟨some i, false⟩, w)) ∧
    (∀ (w : World) (i t cap : Nat), w.getS i = .free →
       SharedLock.tryToLockCtor i w t cap =
         .ok (⟨some i, true⟩, w.setS i (.readHeld [t]))) ∧
    (∀ (w : World) (i t cap : Nat), w.getS i = .writeHeld t →
       SharedLock.tryToLockCtor i w t cap = .thrown EDEADLK ⟨none, false⟩ w) := by
  refine ⟨?_, ?_, ?_, ?_⟩
  · intro w i t cap u hs hne
    simp [SharedLock.tryToLockCtor, pthread_rwlock_tryrdlock, hs, hne,
          EBUSY, EAGAIN, EINVAL, EDEADLK]
  · intro w i t cap rs hs hcap
    simp [SharedLock.tryToLockCtor, pthread_rwlock_tryrdlock, hs, hcap,
          EBUSY, EAGAIN, EINVAL, EDEADLK]
  · intro w i t cap hs
    simp [SharedLock.tryToLockCtor, pthread_rwlock_tryrdlock, hs,
          EBUSY, EAGAIN, EINVAL, EDEADLK]
  · intro w i t cap hs
    simp [SharedLock.tryToLockCtor, pthread_rwlock_tryrdlock, hs,
          EBUSY, EAGAIN, EINVAL, EDEADLK]

/-- Claim C6 witness: a lock write-held by thread 1 makes thread 0's
try-acquire construction succeed in the non-owning state. -/
theorem C6_try_ctor_witness :
    SharedLock.tryToLockCtor 0 [LockState.writeHeld 1] 0 8 =
      .ok (⟨some 0, false⟩, [LockState.writeHeld 1]) :=
  C6_try_ctor_contention_is_nonowning.1 [LockState.writeHeld 1] 0 0 8 1
    rfl (by decide)

/-- Claim C9: `RWLock::unlock` releases whichever mode the calling thread
holds (write hold becomes free; a read hold of the caller is removed),
and when the caller does not hold the lock the `EPERM` the platform
reports is surfaced as a recoverable `false` return with the lock state
unchanged, not an exception. -/
theorem C9_unlock_releases_held_mode_or_notowned :
    (∀ t : Nat, RWLock.unlock (.writeHeld t) t = .ok (true, .free)) ∧
    (∀ (t : Nat) (rs : List Nat), t ∈ rs →
       RWLock.unlock (.readHeld rs) t =
         .ok (true, if rs.erase t = [] then .free
                    else .readHeld (rs.erase t))) ∧
    (∀ (s : LockState) (t : Nat), s.heldBy t = false →
       RWLock.unlock s t = .ok (false, s)) := by
  refine ⟨?_, ?_, ?_⟩
  · intro t
    simp [RWLock.unlock, pthread_rwlock_unlock, EPERM, EINVAL]
  · intro t rs h
    simp [RWLock.unlock, pthread_rwlock_unlock, h, EPERM, EINVAL]
  · intro s t h
    rcases RWLock.unlock_spec s t with ⟨h1, _⟩ | ⟨_, h2⟩
    · rw [h] at h1
      simp at h1
    · exact h2

/-- Claim C9 witness: the last reader releasing leaves the lock free, and
unlocking a free lock reports not-owned as a `false` return. -/
theorem C9_unlock_witness :
    RWLock.unlock (.readHeld [7]) 7 =
      .ok (true, if [7].erase 7 = [] then .free
                 else .readHeld ([7].erase 7)) ∧
    RWLock.unlock .free 5 = .ok (false, .free) :=
  ⟨C9_unlock_releases_held_mode_or_notowned.2.1 7 [7] (by decide),
   C9_unlock_releases_held_mode_or_notowned.2.2 .free 5 rfl⟩

/-- Claim C10: when an owning guard's `unlock()` hits a failing underlying
release (the calling thread does not hold the lock, `EPERM`), the guard
keeps both its `owns_lock_` flag and its lock association and the world
is unchanged; the flag is cleared (and the released state written back)
only when the underlying release succeeds. -/
theorem C10_guard_unlock_unchanged_on_failed_release :
    (∀ (g : Guard) (w : World) (t i : Nat), g.owns_lock_ = true →
       g.lock_ = some i → (w.getS i).heldBy t = false →
       SharedLock.unlock g w t = .ok (g, w)) ∧
    (∀ (g : Guard) (w : World) (t i : Nat), g.owns_lock_ = true →
       g.lock_ = some i → (w.getS i).heldBy t = false →
       UniqueLock.unlock g w t = .ok (g, w)) ∧
    (∀ (g : Guard) (w : World) (t i : Nat), g.owns_lock_ = true →
       g.lock_ = some i → (w.getS i).heldBy t = true →
       SharedLock.unlock g w t =
         .ok (⟨some i, false⟩, w.setS i (pthread_rwlock_unlock (w.getS i) t).2)) ∧
    (∀ (g : Guard) (w : World) (t i : Nat), g.owns_lock_ = true →
       g.lock_ = some i → (w.getS i).heldBy t = true →
       UniqueLock.unlock g w t =
         .ok (⟨some i, false⟩, w.setS i (pthread_rwlock_unlock (w.getS i) t).2)) := by
  have hfail : ∀ (g : Guard) (w : World) (t i : Nat), g.owns_lock_ = true →
      g.lock_ = some i → (w.getS i).heldBy t = false →
      SharedLock.unlock g w t = .ok (g, w) := by
    intro g w t i ho hl hh
    rcases RWLock.unlock_spec (w.getS i) t with ⟨h1, _⟩ | ⟨_, h2⟩
    · rw [hh] at h1
      simp at h1
    · simp [SharedLock.unlock, ho, hl, h2, World.setS_getS]
  have hsucc : ∀ (g : Guard) (w : World) (t i : Nat), g.owns_lock_ = true →
      g.lock_ = some i → (w.getS i).heldBy t = true →
      SharedLock.unlock g w t =
        .ok (⟨some i, false⟩, w.setS i (pthread_rwlock_unlock (w.getS i) t).2) := by
    intro g w t i ho hl hh
    rcases RWLock.unlock_spec (w.getS i) t with ⟨_, h2⟩ | ⟨h1, _⟩
    · obtain ⟨gl, go⟩ := g
      simp only at ho hl
      subst ho
      subst hl
      simp [SharedLock.unlock, h2]
    · rw [hh] at h1
      simp at h1
  exact ⟨hfail, fun g w t i ho hl hh => by
           rw [show UniqueLock.unlock = SharedLock.unlock from rfl]
           exact hfail g w t i ho hl hh,
         hsucc, fun g w t i ho hl hh => by
           rw [show UniqueLock.unlock = SharedLock.unlock from rfl]
           exact hsucc g w t i ho hl hh⟩

/-- Claim C10 witness: a guard that claims ownership of a free lock (the
underlying release fails with `EPERM`) is returned unchanged, still
owning and still associated. -/
theorem C10_unlock_failed_release_witness :
    SharedLock.unlock ⟨some 0, true⟩ [LockState.free] 0 =
      .ok (⟨some 0, true⟩, [LockState.free]) :=
  C10_guard_unlock_unchanged_on_failed_release.1 ⟨some 0, true⟩
    [LockState.free] 0 0 rfl rfl rfl

/-- Claim C3: move construction and move assignment transfer the
`(lock_, owns_lock_)` pair exactly once: the source is left empty, the
destination takes the source's prior state, a destination that already
owned a lock runs the underlying release first, and destroying both the
moved-from source and the destination (in either order) unlocks exactly
once — for both guard types. -/
theorem C3_move_transfers_ownership_once :
    (∀ s : Guard, SharedLock.moveCtor s = (⟨s.lock_, s.owns_lock_⟩, ⟨none, false⟩)) ∧
    (∀ s : Guard, UniqueLock.moveCtor s = (⟨s.lock_, s.owns_lock_⟩, ⟨none, false⟩)) ∧
    (∀ (dst src : Guard) (w : World) (t : Nat), dst.owns_lock_ = false →
       SharedLock.moveAssign dst src w t =
         .ok (⟨src.lock_, src.owns_lock_⟩, ⟨none, false⟩, w)) ∧
    (∀ (dst src : Guard) (w : World) (t : Nat), dst.owns_lock_ = false →
       UniqueLock.moveAssign dst src w t =
         .ok (⟨src.lock_, src.owns_lock_⟩, ⟨none, false⟩, w)) ∧
    (∀ (dst src : Guard) (w : World) (t j : Nat), dst.owns_lock_ = true →
       dst.lock_ = some j → (w.getS j).heldBy t = true →
       SharedLock.moveAssign dst src w t =
         .ok (⟨src.lock_, src.owns_lock_⟩, ⟨none, false⟩,
              w.setS j (pthread_rwlock_unlock (w.getS j) t).2)) ∧
    (∀ (dst src : Guard) (w : World) (t j : Nat), dst.owns_lock_ = true →
       dst.lock_ = some j → (w.getS j).heldBy t = true →
       UniqueLock.moveAssign dst src w t =
         .ok (⟨src.lock_, src.owns_lock_⟩, ⟨none, false⟩,
              w.setS j (pthread_rwlock_unlock (w.getS j) t).2)) ∧
    (∀ (s : Guard) (w : World) (t i : Nat), s.lock_ = some i →
       s.owns_lock_ = true → w.getS i = .readHeld [t] →
       SharedLock.destruct (SharedLock.moveCtor s).2 w t = .ok w ∧
       SharedLock.destruct (SharedLock.moveCtor s).1 w t = .ok (w.setS i .free) ∧
       SharedLock.destruct (SharedLock.moveCtor s).2 (w.setS i .free) t =
         .ok (w.setS i .free)) ∧
    (∀ (s : Guard) (w : World) (t i : Nat), s.lock_ = some i →
       s.owns_lock_ = true → w.getS i = .writeHeld t →
       UniqueLock.destruct (UniqueLock.moveCtor s).2 w t = .ok w ∧
       UniqueLock.destruct (UniqueLock.moveCtor s).1 w t = .ok (w.setS i .free) ∧
       UniqueLock.destruct (UniqueLock.moveCtor s).2 (w.setS i .free) t =
         .ok (w.setS i .free)) := by
  have hassign : ∀ (dst src : Guard) (w : World) (t : Nat), dst.owns_lock_ = false →
      SharedLock.moveAssign dst src w t =
        .ok (⟨src.lock_, src.owns_lock_⟩, ⟨none, false⟩, w) := by
    intro dst src w t h
    simp [SharedLock.moveAssign, h]
  have hassignOwn : ∀ (dst src : Guard) (w : World) (t j : Nat), dst.owns_lock_ = true →
      dst.lock_ = some j → (w.getS j).heldBy t = true →
      SharedLock.moveAssign dst src w t =
        .ok (⟨src.lock_, src.owns_lock_⟩, ⟨none, false⟩,
             w.setS j (pthread_rwlock_unlock (w.getS j) t).2) := by
    intro dst src w t j ho hl hh
    rcases RWLock.unlock_spec (w.getS j) t with ⟨_, h2⟩ | ⟨h1, _⟩
    · simp [SharedLock.moveAssign, ho, hl, h2]
    · rw [hh] at h1
      simp at h1
  have hdtorShared : ∀ (s : Guard) (w : World) (t i : Nat), s.lock_ = some i →
      s.owns_lock_ = true → w.getS i = .readHeld [t] →
      SharedLock.destruct (SharedLock.moveCtor s).2 w t = .ok w ∧
      SharedLock.destruct (SharedLock.moveCtor s).1 w t = .ok (w.setS i .free) ∧
      SharedLock.destruct (SharedLock.moveCtor s).2 (w.setS i .free) t =
        .ok (w.setS i .free) := by
    intro s w t i hl ho hs
    obtain ⟨gl, go⟩ := s
    simp only at hl ho
    subst hl
    subst ho
    refine ⟨rfl, ?_, rfl⟩
    simp [SharedLock.destruct, SharedLock.moveCtor, RWLock.unlock,
          pthread_rwlock_unlock, hs, EPERM, EINVAL]
  have hdtorUnique : ∀ (s : Guard) (w : World) (t i : Nat), s.lock_ = some i →
      s.owns_lock_ = true → w.getS i = .writeHeld t →
      UniqueLock.destruct (UniqueLock.moveCtor s).2 w t = .ok w ∧
      UniqueLock.destruct (UniqueLock.moveCtor s).1 w t = .ok (w.setS i .free) ∧
      UniqueLock.destruct (UniqueLock.moveCtor s).2 (w.setS i .free) t =
        .ok (w.setS i .free) := by
    intro s w t i hl ho hs
    obtain ⟨gl, go⟩ := s
    simp only at hl ho
    subst hl
    subst ho
    refine ⟨rfl, ?_, rfl⟩
    simp [UniqueLock.destruct, UniqueLock.moveCtor, RWLock.unlock,
          pthread_rwlock_unlock, hs, EPERM, EINVAL]
  exact ⟨fun s => rfl, fun s => rfl, hassign,
         fun dst src w t h => by
           rw [show UniqueLock.moveAssign = SharedLock.moveAssign from rfl]
           exact hassign dst src w t h,
         hassignOwn,
         fun dst src w t j ho hl hh => by
           rw [show UniqueLock.moveAssign = SharedLock.moveAssign from rfl]
           exact hassignOwn dst src w t j ho hl hh,
         hdtorShared, hdtorUnique⟩

/-- Claim C3 witness: a shared guard owning lock 0 (read-held by thread 0)
is moved from; destroying the moved-from source is a no-op, destroying
the destination frees the lock, and destroying the source afterwards
changes nothing more. -/
theorem C3_move_witness :
    SharedLock.destruct (SharedLock.moveCtor ⟨some 0, true⟩).2
      [LockState.readHeld [0]] 0 = .ok [LockState.readHeld [0]] ∧
    SharedLock.destruct (SharedLock.moveCtor ⟨some 0, true⟩).1
      [LockState.readHeld [0]] 0 =
        .ok (World.setS [LockState.readHeld [0]] 0 .free) ∧
    SharedLock.destruct (SharedLock.moveCtor ⟨some 0, true⟩).2
      (World.setS [LockState.readHeld [0]] 0 .free) 0 =
        .ok (World.setS [LockState.readHeld [0]] 0 .free) :=
  C3_move_transfers_ownership_once.2.2.2.2.2.2.1 ⟨some 0, true⟩
    [LockState.readHeld [0]] 0 0 rfl rfl rfl

/-- Claim C7: `unlock()` on a non-owning guard is a no-op leaving guard
and lock unchanged; on an owning guard whose thread holds the lock it
releases and clears `owns_lock_`; and whenever `unlock()` returns,
calling it a second time returns the same state — unlock twice equals
unlock once.  Both guard types. -/
theorem C7_unlock_idempotent :
    (∀ (g : Guard) (w : World) (t : Nat), g.owns_lock_ = false →
       SharedLock.unlock g w t = .ok (g, w)) ∧
    (∀ (g : Guard) (w : World) (t : Nat), g.owns_lock_ = false →
       UniqueLock.unlock g w t = .ok (g, w)) ∧
    (∀ (g : Guard) (w : World) (t i : Nat), g.owns_lock_ = true →
       g.lock_ = some i → (w.getS i).heldBy t = true →
       ∃ s2, SharedLock.unlock g w t = .ok (⟨some i, false⟩, w.setS i s2)) ∧
    (∀ (g : Guard) (w : World) (t i : Nat), g.owns_lock_ = true →
       g.lock_ = some i → (w.getS i).heldBy t = true →
       ∃ s2, UniqueLock.unlock g w t = .ok (⟨some i, false⟩, w.setS i s2)) ∧
    (∀ (g g2 : Guard) (w w2 : World) (t : Nat),
       SharedLock.unlock g w t = .ok (g2, w2) →
       SharedLock.unlock g2 w2 t = .ok (g2, w2)) ∧
    (∀ (g g2 : Guard) (w w2 : World) (t : Nat),
       UniqueLock.unlock g w t = .ok (g2, w2) →
       UniqueLock.unlock g2 w2 t = .ok (g2, w2)) := by
  have hnoop : ∀ (g : Guard) (w : World) (t : Nat), g.owns_lock_ = false →
      SharedLock.unlock g w t = .ok (g, w) := by
    intro g w t h
    simp [SharedLock.unlock, h]
  have hrel : ∀ (g : Guard) (w : World) (t i : Nat), g.owns_lock_ = true →
      g.lock_ = some i → (w.getS i).heldBy t = true →
      ∃ s2, SharedLock.unlock g w t = .ok (⟨some i, false⟩, w.setS i s2) := by
    intro g w t i ho hl hh
    rcases RWLock.unlock_spec (w.getS i) t with ⟨_, h2⟩ | ⟨h1, _⟩
    · obtain ⟨gl, go⟩ := g
      simp only at ho hl
      subst ho
      subst hl
      exact ⟨(pthread_rwlock_unlock (w.getS i) t).2, by simp [SharedLock.unlock, h2]⟩
    · rw [hh] at h1
      simp at h1
  have hidem : ∀ (g g2 : Guard) (w w2 : World) (t : Nat),
      SharedLock.unlock g w t = .ok (g2, w2) →
      SharedLock.unlock g2 w2 t = .ok (g2, w2) := by
    intro g g2 w w2 t h
    obtain ⟨gl, go⟩ := g
    cases go with
    | false =>
        simp [SharedLock.unlock] at h
        obtain ⟨h1, h2⟩ := h
        subst h1
        subst h2
        simp [SharedLock.unlock]
    | true =>
        cases gl with
        | none => simp [SharedLock.unlock] at h
        | some i =>
            rcases RWLock.unlock_spec (w.getS i) t with ⟨hh, h2⟩ | ⟨hh, h2⟩
            · simp [SharedLock.unlock, h2] at h
              obtain ⟨h1, h3⟩ := h
              subst h1
              subst h3
              simp [SharedLock.unlock]
            · simp [SharedLock.unlock, h2, World.setS_getS] at h
              obtain ⟨h1, h3⟩ := h
              subst h1
              subst h3
              simp [SharedLock.unlock, h2, World.setS_getS]
  exact ⟨hnoop,
         fun g w t h => by
           rw [show UniqueLock.unlock = SharedLock.unlock from rfl]
           exact hnoop g w t h,
         hrel,
         fun g w t i ho hl hh => by
           rw [show UniqueLock.unlock = SharedLock.unlock from rfl]
           exact hrel g w t i ho hl hh,
         hidem,
         fun g g2 w w2 t h => by
           rw [show UniqueLock.unlock = SharedLock.unlock from rfl] at h ⊢
           exact hidem g g2 w w2 t h⟩

/-- Claim C7 witness: a non-owning guard's `unlock()` is a no-op, and the
state reached by a first `unlock()` (owning guard, lock read-held by the
caller) is a fixed point of a second `unlock()`. -/
theorem C7_unlock_witness :
    SharedLock.unlock ⟨some 0, false⟩ [] 0 = .ok (⟨some 0, false⟩, []) ∧
    SharedLock.unlock ⟨some 0, false⟩ [LockState.free] 0 =
      .ok (⟨some 0, false⟩, [LockState.free]) :=
  ⟨C7_unlock_idempotent.1 ⟨some 0, false⟩ [] 0 rfl,
   C7_unlock_idempotent.2.2.2.2.1 ⟨some 0, true⟩ ⟨some 0, false⟩
     [LockState.readHeld [0]] [LockState.free] 0 rfl⟩

/-- Claim C8 (counterexample): the claim says `lock()`/`try_lock()` on a
disassociated guard is defined behavior that performs the acquire.  On a
guard whose `lock_` is null (after `release()` or a move-out) the code
dereferences the null pointer: undefined behavior, modelled as `fault`. -/
theorem C8_acquire_on_disassociated_guard_faults :
    SharedLock.lock ⟨none, false⟩ [] 0 8 = .fault ∧
    SharedLock.try_lock ⟨none, false⟩ [] 0 = .fault ∧
    UniqueLock.lock ⟨none, false⟩ [] 0 = .fault ∧
    UniqueLock.try_lock ⟨none, false⟩ [] 0 = .fault :=
  ⟨rfl, rfl, rfl, rfl⟩

/-- Claim C8 (amended): post-construction `lock()`/`try_lock()` are
defined only while the guard is associated with a lock: with a null
`lock_` every such call dereferences the null pointer (undefined
behavior), whereas on an associated guard `try_lock()` always returns
normally with a success boolean (never throws or faults, since
`pthread_rwlock_trywrlock` never reports `EINVAL` on a valid lock). -/
theorem C8_acquire_defined_only_when_associated :
    (∀ (w : World) (t cap : Nat) (b : Bool),
       SharedLock.lock ⟨none, b⟩ w t cap = .fault) ∧
    (∀ (w : World) (t : Nat) (b : Bool),
       SharedLock.try_lock ⟨none, b⟩ w t = .fault) ∧
    (∀ (w : World) (t : Nat) (b : Bool),
       UniqueLock.lock ⟨none, b⟩ w t = .fault) ∧
    (∀ (w : World) (t : Nat) (b : Bool),
       UniqueLock.try_lock ⟨none, b⟩ w t = .fault) ∧
    (∀ (w : World) (t i : Nat) (b : Bool),
       ∃ (res : Bool) (g2 : Guard) (w2 : World),
         SharedLock.try_lock ⟨some i, b⟩ w t = .ok (res, g2, w2)) ∧
    (∀ (w : World) (t i : Nat) (b : Bool),
       ∃ (res : Bool) (g2 : Guard) (w2 : World),
         UniqueLock.try_lock ⟨some i, b⟩ w t = .ok (res, g2, w2)) := by
  have hok : ∀ (w : World) (t i : Nat) (b : Bool),
      ∃ (res : Bool) (g2 : Guard) (w2 : World),
        SharedLock.try_lock ⟨some i, b⟩ w t = .ok (res, g2, w2) := by
    intro w t i b
    rcases trywr_cases (w.getS i) t with h0 | h1 | h1
    · exact ⟨true, ⟨some i, true⟩,
             w.setS i (pthread_rwlock_trywrlock (w.getS i) t).2,
             SharedLock.try_lock_succ ⟨some i, b⟩ w t i rfl h0⟩
    · exact ⟨b, ⟨some i, b⟩, w,
             SharedLock.try_lock_fail ⟨some i, b⟩ w t i rfl
               (by rw [h1]; simp [EBUSY])⟩
    · exact ⟨b, ⟨some i, b⟩, w,
             SharedLock.try_lock_fail ⟨some i, b⟩ w t i rfl
               (by rw [h1]; simp [EDEADLK])⟩
  refine ⟨fun w t cap b => rfl, fun w t b => rfl, fun w t b => rfl,
          fun w t b => rfl, hok, ?_⟩
  intro w t i b
  rw [UniqueLock.try_lock_eq_shared]
  exact hok w t i b

/-- Claim C5: `try_lock_for(d)` is `try_lock_until(now + d)`; the polling
loop attempts `try_lock()` once per poll interval, returns `true` as soon
as the first attempt inside the window succeeds, and returns `false` once
the deadline elapses with every attempt having failed.  Both guard
types.  (`env n` is the lock state seen by the poll at tick `n`.) -/
theorem C5_timed_polling_deadline_contract :
    (∀ (g : Guard) (env : Nat → World) (t now d : Nat),
       SharedLock.try_lock_for g env t now d =
         SharedLock.try_lock_until g env t now (now + d)) ∧
    (∀ (g : Guard) (env : Nat → World) (t now d : Nat),
       UniqueLock.try_lock_for g env t now d =
         UniqueLock.try_lock_until g env t now (now + d)) ∧
    (∀ (env : Nat → World) (t i now dl : Nat),
       (∀ n, now ≤ n → n < dl →
          (pthread_rwlock_trywrlock ((env n).getS i) t).1 ≠ 0) →
       SharedLock.try_lock_until ⟨some i, false⟩ env t now dl =
         .ok (false, ⟨some i, false⟩)) ∧
    (∀ (env : Nat → World) (t i now dl : Nat),
       (∀ n, now ≤ n → n < dl →
          (pthread_rwlock_trywrlock ((env n).getS i) t).1 ≠ 0) →
       UniqueLock.try_lock_until ⟨some i, false⟩ env t now dl =
         .ok (false, ⟨some i, false⟩)) ∧
    (∀ (env : Nat → World) (t i now dl k : Nat), now ≤ k → k < dl →
       (pthread_rwlock_trywrlock ((env k).getS i) t).1 = 0 →
       (∀ m, now ≤ m → m < k →
          (pthread_rwlock_trywrlock ((env m).getS i) t).1 ≠ 0) →
       SharedLock.try_lock_until ⟨some i, false⟩ env t now dl =
         .ok (true, ⟨some i, true⟩)) ∧
    (∀ (env : Nat → World) (t i now dl k : Nat), now ≤ k → k < dl →
       (pthread_rwlock_trywrlock ((env k).getS i) t).1 = 0 →
       (∀ m, now ≤ m → m < k →
          (pthread_rwlock_trywrlock ((env m).getS i) t).1 ≠ 0) →
       UniqueLock.try_lock_until ⟨some i, false⟩ env t now dl =
         .ok (true, ⟨some i, true⟩)) := by
  have htimeout : ∀ (env : Nat → World) (t i now dl : Nat),
      (∀ n, now ≤ n → n < dl →
         (pthread_rwlock_trywrlock ((env n).getS i) t).1 ≠ 0) →
      SharedLock.try_lock_until ⟨some i, false⟩ env t now dl =
        .ok (false, ⟨some i, false⟩) := by
    intro env t i now dl h
    exact SharedLock.aux_timeout env t i (dl - now) now (fun k hk =>
      h (now + k) (Nat.le_add_right now k) (by omega))
  have hfirst : ∀ (env : Nat → World) (t i now dl k : Nat), now ≤ k → k < dl →
      (pthread_rwlock_trywrlock ((env k).getS i) t).1 = 0 →
      (∀ m, now ≤ m → m < k →
         (pthread_rwlock_trywrlock ((env m).getS i) t).1 ≠ 0) →
      SharedLock.try_lock_until ⟨some i, false⟩ env t now dl =
        .ok (true, ⟨some i, true⟩) := by
    intro env t i now dl k hnk hkd hsucc hpre
    refine SharedLock.aux_first_succ env t i (dl - now) (k - now) now
      (by omega) ?_ ?_
    · rw [show now + (k - now) = k by omega]
      exact hsucc
    · intro m hm
      exact hpre (now + m) (Nat.le_add_right now m) (by omega)
  refine ⟨fun g env t now d => rfl, fun g env t now d => rfl,
          htimeout, ?_, hfirst, ?_⟩
  · intro env t i now dl h
    show UniqueLock.try_lock_until_aux env t ⟨some i, false⟩ now (dl - now) =
      .ok (false, ⟨some i, false⟩)
    rw [UniqueLock.aux_eq_shared]
    exact htimeout env t i now dl h
  · intro env t i now dl k hnk hkd hsucc hpre
    show UniqueLock.try_lock_until_aux env t ⟨some i, false⟩ now (dl - now) =
      .ok (true, ⟨some i, true⟩)
    rw [UniqueLock.aux_eq_shared]
    exact hfirst env t i now dl k hnk hkd hsucc hpre

/-- Claim C5 witness: polling against a lock held exclusively by another
thread for the whole window times out with `false`; polling a free lock
succeeds immediately with `true`. -/
theorem C5_polling_witness :
    SharedLock.try_lock_until ⟨some 0, false⟩
      (fun _ => [LockState.writeHeld 1]) 0 0 3 = .ok (false, ⟨some 0, false⟩) ∧
    SharedLock.try_lock_until ⟨some 0, false⟩
      (fun _ => [LockState.free]) 0 0 3 = .ok (true, ⟨some 0, true⟩) :=
  ⟨C5_timed_polling_deadline_contract.2.2.1
     (fun _ => [LockState.writeHeld 1]) 0 0 0 3 (fun n _ _ => by
       show (pthread_rwlock_trywrlock
         (World.getS [LockState.writeHeld 1] 0) 0).1 ≠ 0
       decide),
   C5_timed_polling_deadline_contract.2.2.2.2.1
     (fun _ => [LockState.free]) 0 0 0 3 0 (Nat.le_refl 0) (by decide)
     (by decide) (fun m _ hm => absurd hm (Nat.not_lt_zero m))⟩
